import Mathlib

/-!
Shallow embedding of the job-construction layer of the Swift compiler driver
declared in include/swift/Driver/ToolChain.h.  The repository provides only the
header (declarations and their doc comments); the bodies of the declared
operations are modelled from the specification, as noted on each definition.
-/

namespace SwiftDriver

/-- Language/artifact kinds (types::ID from swift/Frontend/Types.h as used by
the header): Swift source, SIL, SIB, object, index data, and the explicit
invalid kind TY_INVALID. -/
inductive TypeID where
  | TY_Swift
  | TY_SIL
  | TY_SIB
  | TY_Object
  | TY_IndexData
  | TY_INVALID
deriving DecidableEq, Repr

/-- Output modes of a compilation (OutputInfo::Mode): StandardCompile is the
one-object-per-input mode named by ToolChain::jobIsBatchable. -/
inductive OutputMode where
  | StandardCompile
  | SingleCompile
  | BatchModeCompile
  | Immediate
  | REPL
deriving DecidableEq, Repr

/-- Kinds of Action nodes (the JobAction subclasses listed by the
constructInvocation family in the header, plus InputAction). -/
inductive ActionKind where
  | Input
  | CompileJob
  | InterpretJob
  | BackendJob
  | MergeModuleJob
  | ModuleWrapJob
  | REPLJob
  | GenerateDSYMJob
  | VerifyDebugInfoJob
  | GeneratePCHJob
  | AutolinkExtractJob
  | LinkJob
deriving DecidableEq, Repr

/-- Frontend compile granularity (the mode flag computed by
JobContext::computeFrontendModeForCompile). -/
inductive FrontendMode where
  | singleFile
  | wholeModule
  | batch
deriving DecidableEq, Repr

/-- Logical categories of a list-file request (FilelistInfo categories). -/
inductive FilelistCategory where
  | inputs
  | primaryInputs
  | outputs
  | mergeModuleInputs
  | linkInputs
  | supplementaryOutputs
deriving DecidableEq, Repr

/-- A deferred list-file request: a materialization path and the logical
category of arguments it replaces. -/
structure FilelistInfo where
  path : String
  category : FilelistCategory
deriving DecidableEq, Repr

/-- A node of the compilation plan, reduced to what the header exposes: its
kind, the type it produces (for InputAction, the type of the input file), and
its name (for InputAction, the path to the input file). -/
structure Action where
  kind : ActionKind
  ty : TypeID
  name : String
deriving DecidableEq, Repr

/-- The OutputInfo consulted by the toolchain: its output mode. -/
structure OutputInfo where
  mode : OutputMode
deriving DecidableEq, Repr

/-- The compilation session as seen from the toolchain: the parsed driver
arguments (getArgs), the session output info, the top-level input files
(getInputFiles, as (type, path) pairs), and the session-wide all-sources list
file path (getAllSourcesPath). -/
structure Compilation where
  args : List String
  OI : OutputInfo
  inputFiles : List (TypeID × String)
  allSourcesPath : String
deriving DecidableEq, Repr

/-- Accessor mirroring Compilation::getArgs. -/
def Compilation.getArgs (C : Compilation) : List String :=
  C.args

/-- The per-job output description (CommandOutput): the primary output type,
the ordered output paths, and the designated index-file-path argument value
used for index-data jobs. -/
structure CommandOutput where
  primaryOutputType : TypeID
  outputs : List String
  indexFilePath : String
deriving DecidableEq, Repr

/-- A concrete invocation (Job).  Jobs reference their input Jobs by numeric
identifier, standing in for the non-owning pointers of the header. -/
structure Job where
  sourceKind : ActionKind
  inputActions : List Action
  executable : String
  arguments : List String
  outputType : TypeID
  extraEnv : List (String × String)
  filelists : List FilelistInfo
  primaryInputs : List String
  outputs : List String
  frontendMode : FrontendMode
  deps : List Nat
deriving DecidableEq, Repr

/-- The limit for passing a list of files on the command line
(ToolChain::JobContext::TOO_MANY_FILES). -/
def TOO_MANY_FILES : Nat := 128

/-- Supplementary information about the job being created
(ToolChain::JobContext): the compilation, the input Jobs (by identifier), the
input Actions, the output description, the output info, and the cached driver
arguments. -/
structure JobContext where
  C : Compilation
  Inputs : List Nat
  InputActions : List Action
  Output : CommandOutput
  OI : OutputInfo
  Args : List String
deriving DecidableEq, Repr

/-- Forwards to Compilation::getInputFiles. -/
def JobContext.getTopLevelInputFiles (ctx : JobContext) : List (TypeID × String) :=
  ctx.C.inputFiles

/-- Forwards to Compilation::getAllSourcesPath. -/
def JobContext.getAllSourcesPath (ctx : JobContext) : String :=
  ctx.C.allSourcesPath

/-- Modelled from the spec: JobContext::getTemporaryFilePath allocates a fresh
temp path for a job; the session's allocation is modelled as a deterministic
function of the requested name and suffix. -/
def JobContext.getTemporaryFilePath (ctx : JobContext) (name : String)
    (suffix : String) : String :=
  ctx.C.allSourcesPath ++ "-" ++ name ++ suffix

/-- The primary input paths of the job under construction: the paths of its
InputActions. -/
def JobContext.primaryInputNames (ctx : JobContext) : List String :=
  (ctx.InputActions.filter (fun a => a.kind == ActionKind.Input)).map
    (fun a => a.name)

/-- Modelled from the spec: the body of JobContext::shouldUseInputFileList is
not in the header; per the spec a list file for the top-level inputs is needed
when their member count exceeds the fixed threshold TOO_MANY_FILES. -/
def JobContext.shouldUseInputFileList (ctx : JobContext) : Bool :=
  ctx.getTopLevelInputFiles.length > TOO_MANY_FILES

/-- Modelled from the spec: the body of
JobContext::shouldUsePrimaryInputFileList is not in the header; a primary
file list is needed when the primary-input count exceeds TOO_MANY_FILES. -/
def JobContext.shouldUsePrimaryInputFileList (ctx : JobContext) : Bool :=
  ctx.primaryInputNames.length > TOO_MANY_FILES

/-- Modelled from the spec: the body of
JobContext::shouldUseMainOutputFileList is not in the header; a file list for
the main outputs is needed when their count exceeds TOO_MANY_FILES. -/
def JobContext.shouldUseMainOutputFileList (ctx : JobContext) : Bool :=
  ctx.Output.outputs.length > TOO_MANY_FILES

/-- Modelled from the spec: the body of
JobContext::addFrontendInputAndOutputArguments is not in the header; per the
spec, for each argument category the encoding-policy predicate is consulted:
if inline, each member is appended in original presentation order; otherwise a
single list-file request is emitted for the category together with one flag
referencing the list-file path.  Returns the assembled arguments and the
list-file requests. -/
def JobContext.addFrontendInputAndOutputArguments (ctx : JobContext) :
    List String × List FilelistInfo :=
  let inputPart :=
    if ctx.shouldUseInputFileList then
      (["-filelist", ctx.getAllSourcesPath],
       [({ path := ctx.getAllSourcesPath,
           category := FilelistCategory.inputs } : FilelistInfo)])
    else
      (ctx.getTopLevelInputFiles.map (fun p => p.2), ([] : List FilelistInfo))
  let primaryPart :=
    if ctx.shouldUsePrimaryInputFileList then
      (["-primary-filelist", ctx.getTemporaryFilePath "primaryInputs" ""],
       [({ path := ctx.getTemporaryFilePath "primaryInputs" "",
           category := FilelistCategory.primaryInputs } : FilelistInfo)])
    else
      (ctx.primaryInputNames.flatMap (fun n => ["-primary-file", n]),
       ([] : List FilelistInfo))
  let outputPart :=
    if ctx.shouldUseMainOutputFileList then
      (["-output-filelist", ctx.getTemporaryFilePath "outputs" ""],
       [({ path := ctx.getTemporaryFilePath "outputs" "",
           category := FilelistCategory.outputs } : FilelistInfo)])
    else
      (ctx.Output.outputs.flatMap (fun n => ["-o", n]),
       ([] : List FilelistInfo))
  (inputPart.1 ++ primaryPart.1 ++ outputPart.1,
   inputPart.2 ++ primaryPart.2 ++ outputPart.2)

/-- Modelled from the spec: the body of ToolChain::jobIsBatchable is not in
the header; its doc comment states the job is batchable when it is built from
a CompileJobAction, in a Compilation running in StandardCompile output mode,
with a single TY_Swift InputAction. -/
def jobIsBatchable (C : Compilation) (A : Job) : Bool :=
  A.sourceKind == ActionKind.CompileJob &&
  C.OI.mode == OutputMode.StandardCompile &&
  (match A.inputActions with
   | [a] => a.kind == ActionKind.Input && a.ty == TypeID.TY_Swift
   | _ => false)

/-- Modelled from the spec: the body of ToolChain::jobsAreBatchCombinable is
not in the header; its doc comment states it holds when each job
independently satisfies jobIsBatchable and the two jobs have identical
executables, output types and environments. -/
def jobsAreBatchCombinable (C : Compilation) (A B : Job) : Bool :=
  jobIsBatchable C A && jobIsBatchable C B &&
  A.executable == B.executable &&
  A.outputType == B.outputType &&
  A.extraEnv == B.extraEnv

/-- Partitioning a list of jobs into equivalence classes of
jobsAreBatchCombinable: the class of each presented job is the multiset of
presented jobs combinable with it, and the partition is the set of those
classes. -/
def batchPartition (C : Compilation) (l : List Job) : Finset (Multiset Job) :=
  (l.map (fun j =>
    ((l.filter (fun k => jobsAreBatchCombinable C j k) : List Job) :
      Multiset Job))).toFinset

/-- Modelled from the spec: the body of ToolChain::constructBatchJob is not in
the header; per the spec it merges a non-empty equivalence class into a single
Job whose primary-input and output lists are the per-member concatenations in
original order, whose executable and environment come from a representative
member, and whose frontend mode is batch mode.  Returns none on an empty
class (a programming error per the spec). -/
def constructBatchJob (C : Compilation) (jobs : List Job) : Option Job :=
  match jobs with
  | [] => none
  | j :: rest =>
    some { sourceKind := ActionKind.CompileJob
           inputActions := (j :: rest).flatMap (fun k => k.inputActions)
           executable := j.executable
           arguments := j.arguments
           outputType := j.outputType
           extraEnv := j.extraEnv
           filelists := j.filelists
           primaryInputs := (j :: rest).flatMap (fun k => k.primaryInputs)
           outputs := (j :: rest).flatMap (fun k => k.outputs)
           frontendMode := FrontendMode.batch
           deps := (j :: rest).flatMap (fun k => k.deps) }

/-- Modelled from the spec: the extension table behind
ToolChain::lookupTypeForExtension is not in the header; recognized extensions
and their kinds, with the Swift source extension mapping to the source
kind. -/
def extensionTable : List (String × TypeID) :=
  [("swift", TypeID.TY_Swift),
   ("sil", TypeID.TY_SIL),
   ("sib", TypeID.TY_SIB),
   ("o", TypeID.TY_Object)]

/-- Modelled from the spec: the body of ToolChain::lookupTypeForExtension is
not in the header; per its doc comment it returns the default language type
for the given extension, and TY_INVALID when the extension is empty or
otherwise not recognized. -/
def lookupTypeForExtension (ext : String) : TypeID :=
  match extensionTable.find? (fun p => p.1 == ext) with
  | some p => p.2
  | none => TypeID.TY_INVALID

/-- The program lookup cache (ToolChain::ProgramLookupCache), a string map
modelled as an association list from tool name to resolved path. -/
abbrev ProgramLookupCache : Type := List (String × String)

/-- Lookup in the program cache. -/
def cacheLookup (cache : ProgramLookupCache) (name : String) : Option String :=
  ((List.find? (fun p => p.1 == name)) cache).map (fun p => p.2)

/-- Modelled from the spec: the body of ToolChain::findProgramRelativeToSwift
is not in the header; per its doc comment and the spec it checks the cache,
and on a miss invokes the platform search findProgramRelativeToSwiftImpl
(passed here as the function impl), caches its result, and returns the cached
value thereafter.  Returns the resolved path, the updated cache, and how many
times impl was invoked during this call. -/
def findProgramRelativeToSwift (impl : String → String)
    (cache : ProgramLookupCache) (name : String) :
    String × ProgramLookupCache × Nat :=
  match cacheLookup cache name with
  | some path => (path, cache, 0)
  | none => (impl name, ((name, impl name) :: cache : List (String × String)), 1)

/-- Modelled from the spec: the body of
ToolChain::canCompileInputArgumentBePrimary is not in the header; per its doc
comment and the spec, for an index data job only the arguments equal to the
output's designated index-file-path value are primary; for other job kinds
every compile input argument may be primary. -/
def canCompileInputArgumentBePrimary (Output : CommandOutput) (A : String) :
    Bool :=
  if Output.primaryOutputType == TypeID.TY_IndexData then
    A == Output.indexFilePath
  else
    true

/-- Modelled from the spec: the JobContext constructor's body is not in the
header; it packs the supplementary information together and caches
C.getArgs() in the Args field. -/
def mkJobContext (C : Compilation) (Inputs : List Nat)
    (InputActions : List Action) (Output : CommandOutput) (OI : OutputInfo) :
    JobContext :=
  { C := C, Inputs := Inputs, InputActions := InputActions, Output := Output,
    OI := OI, Args := C.getArgs }

/-- Information chosen by toolchains to create jobs
(ToolChain::InvocationInfo). -/
structure InvocationInfo where
  ExecutableName : String
  Arguments : List String
  ExtraEnvironment : List (String × String)
  FilelistInfos : List FilelistInfo
deriving DecidableEq, Repr

/-- The frontend mode for a compile, derived from the output mode. -/
def computeFrontendMode (OI : OutputInfo) : FrontendMode :=
  match OI.mode with
  | OutputMode.BatchModeCompile => FrontendMode.batch
  | OutputMode.SingleCompile => FrontendMode.wholeModule
  | _ => FrontendMode.singleFile

/-- Modelled from the spec: the constructInvocation family's bodies are not in
the header; per the spec each is a pure function from the Job Context to an
Invocation Descriptor, with the compile case assembling the frontend
input/output arguments. -/
def constructInvocation (kind : ActionKind) (ctx : JobContext) :
    InvocationInfo :=
  match kind with
  | ActionKind.CompileJob =>
    { ExecutableName := "swift"
      Arguments := "-frontend" :: ctx.addFrontendInputAndOutputArguments.1
      ExtraEnvironment := []
      FilelistInfos := ctx.addFrontendInputAndOutputArguments.2 }
  | ActionKind.LinkJob =>
    { ExecutableName := "ld", Arguments := ctx.Output.outputs,
      ExtraEnvironment := [], FilelistInfos := [] }
  | _ =>
    { ExecutableName := "swift", Arguments := ctx.Args,
      ExtraEnvironment := [], FilelistInfos := [] }

/-- Modelled from the spec: the body of ToolChain::constructJob is not in the
header; per the spec it builds a Job Context from its arguments, dispatches
to the constructInvocation operation for the action's kind, and wraps the
returned Invocation Descriptor into a new Job whose dependency edges are the
given input Jobs. -/
def constructJob (JA : ActionKind) (C : Compilation) (inputs : List Nat)
    (inputActions : List Action) (output : CommandOutput) (OI : OutputInfo) :
    Job :=
  let context := mkJobContext C inputs inputActions output OI
  let invocation := constructInvocation JA context
  { sourceKind := JA
    inputActions := inputActions
    executable := invocation.ExecutableName
    arguments := invocation.Arguments
    outputType := output.primaryOutputType
    extraEnv := invocation.ExtraEnvironment
    filelists := invocation.FilelistInfos
    primaryInputs := context.primaryInputNames
    outputs := output.outputs
    frontendMode := computeFrontendMode OI
    deps := inputs }

/-! Concrete fixtures used by the witnesses. -/

/-- A single Swift source input action. -/
def actSwift : Action :=
  { kind := ActionKind.Input, ty := TypeID.TY_Swift, name := "main.swift" }

/-- A second Swift source input action. -/
def actSwift2 : Action :=
  { kind := ActionKind.Input, ty := TypeID.TY_Swift, name := "util.swift" }

/-- Output info in the standard one-object-per-input mode. -/
def oiStd : OutputInfo := { mode := OutputMode.StandardCompile }

/-- A compilation in StandardCompile mode with two Swift inputs. -/
def compStd : Compilation :=
  { args := ["-O"], OI := oiStd,
    inputFiles := [(TypeID.TY_Swift, "main.swift"),
                   (TypeID.TY_Swift, "util.swift")],
    allSourcesPath := "/tmp/sources" }

/-- A batchable single-file compile job for main.swift. -/
def jobA : Job :=
  { sourceKind := ActionKind.CompileJob, inputActions := [actSwift],
    executable := "swift", arguments := [], outputType := TypeID.TY_Object,
    extraEnv := [], filelists := [], primaryInputs := ["main.swift"],
    outputs := ["main.o"], frontendMode := FrontendMode.singleFile,
    deps := [] }

/-- A batchable single-file compile job for util.swift, identical to jobA
aside from its inputs. -/
def jobB : Job :=
  { sourceKind := ActionKind.CompileJob, inputActions := [actSwift2],
    executable := "swift", arguments := [], outputType := TypeID.TY_Object,
    extraEnv := [], filelists := [], primaryInputs := ["util.swift"],
    outputs := ["util.o"], frontendMode := FrontendMode.singleFile,
    deps := [] }

/-- A one-output command-output description. -/
def outObj : CommandOutput :=
  { primaryOutputType := TypeID.TY_Object, outputs := ["main.o"],
    indexFilePath := "" }

/-! Helper lemmas shared by several claims. -/

/-- Unfolding of jobsAreBatchCombinable into its five conjuncts. -/
theorem jobsAreBatchCombinable_eq_true {C : Compilation} {A B : Job} :
    jobsAreBatchCombinable C A B = true ↔
      jobIsBatchable C A = true ∧ jobIsBatchable C B = true ∧
      A.executable = B.executable ∧ A.outputType = B.outputType ∧
      A.extraEnv = B.extraEnv := by
  simp [jobsAreBatchCombinable, Bool.and_eq_true, beq_iff_eq, and_assoc]

/-- Concatenating lists of length one over a list gives a list of the same
length. -/
theorem length_flatMap_of_forall_length_one {α β : Type} (f : α → List β)
    (l : List α) (h : ∀ x ∈ l, (f x).length = 1) :
    (l.flatMap f).length = l.length := by
  induction l with
  | nil => rfl
  | cons a t ih =>
    have ha : (f a).length = 1 := h a (List.mem_cons_self a t)
    have ht : ∀ x ∈ t, (f x).length = 1 := fun x hx => h x (List.mem_cons_of_mem a hx)
    simp [List.flatMap_cons, ha, ih ht, Nat.add_comm]

/-- C4: jobIsBatchable holds exactly when the job comes from a single-file
compile action, the compilation's output mode is StandardCompile, and the
job's single input action is a TY_Swift source input. -/
theorem jobIsBatchable_iff (C : Compilation) (J : Job) :
    jobIsBatchable C J = true ↔
      (J.sourceKind = ActionKind.CompileJob ∧
       C.OI.mode = OutputMode.StandardCompile ∧
       ∃ a : Action, J.inputActions = [a] ∧ a.kind = ActionKind.Input ∧
         a.ty = TypeID.TY_Swift) := by
  unfold jobIsBatchable
  rcases h : J.inputActions with _ | ⟨a, rest⟩
  · simp [h]
  · cases rest with
    | nil => simp [h, Bool.and_eq_true, beq_iff_eq, and_assoc]
    | cons b t => simp [h]

/-- C1: jobsAreBatchCombinable is reflexive on batchable jobs, symmetric and
transitive, and partitioning any presented list of jobs into its equivalence
classes does not depend on the presentation order. -/
theorem jobsAreBatchCombinable_equivalence (C : Compilation) :
    (∀ A : Job, jobIsBatchable C A = true →
        jobsAreBatchCombinable C A A = true) ∧
    (∀ A B : Job, jobsAreBatchCombinable C A B = true →
        jobsAreBatchCombinable C B A = true) ∧
    (∀ A B D : Job, jobsAreBatchCombinable C A B = true →
        jobsAreBatchCombinable C B D = true →
        jobsAreBatchCombinable C A D = true) ∧
    (∀ l₁ l₂ : List Job, l₁.Perm l₂ →
        batchPartition C l₁ = batchPartition C l₂) := by
  refine ⟨?_, ?_, ?_, ?_⟩
  · intro A h
    exact jobsAreBatchCombinable_eq_true.mpr ⟨h, h, rfl, rfl, rfl⟩
  · intro A B h
    obtain ⟨h1, h2, h3, h4, h5⟩ := jobsAreBatchCombinable_eq_true.mp h
    exact jobsAreBatchCombinable_eq_true.mpr ⟨h2, h1, h3.symm, h4.symm, h5.symm⟩
  · intro A B D hab hbd
    obtain ⟨h1, h2, h3, h4, h5⟩ := jobsAreBatchCombinable_eq_true.mp hab
    obtain ⟨g1, g2, g3, g4, g5⟩ := jobsAreBatchCombinable_eq_true.mp hbd
    exact jobsAreBatchCombinable_eq_true.mpr
      ⟨h1, g2, h3.trans g3, h4.trans g4, h5.trans g5⟩
  · intro l₁ l₂ hperm
    unfold batchPartition
    have hfun : ∀ j ∈ l₁,
        ((l₁.filter (fun k => jobsAreBatchCombinable C j k) : List Job) :
            Multiset Job)
          = ((l₂.filter (fun k => jobsAreBatchCombinable C j k) : List Job) :
            Multiset Job) := by
      intro j _
      rw [Multiset.coe_eq_coe]
      exact hperm.filter _
    rw [List.map_congr_left hfun]
    exact List.toFinset_eq_of_perm _ _
      (hperm.map (fun j =>
        ((l₂.filter (fun k => jobsAreBatchCombinable C j k) : List Job) :
          Multiset Job)))

/-- Witness for C1: reflexivity at a concrete batchable job, and
order-independence of the partition of a concrete two-job list. -/
theorem jobsAreBatchCombinable_equivalence_witness :
    jobsAreBatchCombinable compStd jobA jobA = true ∧
    batchPartition compStd [jobA, jobB] = batchPartition compStd [jobB, jobA] :=
  ⟨(jobsAreBatchCombinable_equivalence compStd).1 jobA (by decide),
   (jobsAreBatchCombinable_equivalence compStd).2.2.2 [jobA, jobB]
     [jobB, jobA] (List.Perm.swap jobB jobA [])⟩

/-- C2: merging a non-empty equivalence class of pairwise batch-combinable
single-primary-input jobs yields exactly one Job whose primary-input and
output lists are the in-order per-member concatenations (hence of length N),
whose executable and extra environment equal those of every member, and whose
frontend mode is batch mode. -/
theorem constructBatchJob_merge_shape (C : Compilation) (jobs : List Job)
    (hne : jobs ≠ [])
    (hcomb : ∀ a ∈ jobs, ∀ b ∈ jobs, jobsAreBatchCombinable C a b = true)
    (hone : ∀ j ∈ jobs, j.primaryInputs.length = 1 ∧ j.outputs.length = 1) :
    ∃ J : Job, constructBatchJob C jobs = some J ∧
      J.primaryInputs = jobs.flatMap (fun k => k.primaryInputs) ∧
      J.primaryInputs.length = jobs.length ∧
      J.outputs = jobs.flatMap (fun k => k.outputs) ∧
      J.outputs.length = jobs.length ∧
      (∀ j ∈ jobs, J.executable = j.executable ∧ J.extraEnv = j.extraEnv) ∧
      J.frontendMode = FrontendMode.batch := by
  cases jobs with
  | nil => exact absurd rfl hne
  | cons j rest =>
    refine ⟨_, rfl, rfl, ?_, rfl, ?_, ?_, rfl⟩
    · exact length_flatMap_of_forall_length_one _ _
        (fun x hx => (hone x hx).1)
    · exact length_flatMap_of_forall_length_one _ _
        (fun x hx => (hone x hx).2)
    · intro k hk
      have h := jobsAreBatchCombinable_eq_true.mp
        (hcomb j (List.mem_cons_self j rest) k hk)
      exact ⟨h.2.2.1, h.2.2.2.2⟩

/-- Witness for C2: merging the two-element class consisting of jobA and
jobB. -/
theorem constructBatchJob_merge_shape_witness :
    ∃ J : Job, constructBatchJob compStd [jobA, jobB] = some J ∧
      J.primaryInputs = [jobA, jobB].flatMap (fun k => k.primaryInputs) ∧
      J.primaryInputs.length = [jobA, jobB].length ∧
      J.outputs = [jobA, jobB].flatMap (fun k => k.outputs) ∧
      J.outputs.length = [jobA, jobB].length ∧
      (∀ j ∈ [jobA, jobB], J.executable = j.executable ∧
        J.extraEnv = j.extraEnv) ∧
      J.frontendMode = FrontendMode.batch :=
  constructBatchJob_merge_shape compStd [jobA, jobB] (by decide) (by decide)
    (by decide)

/-- A compilation with 127 top-level input files. -/
def comp127 : Compilation :=
  { args := [], OI := oiStd,
    inputFiles := List.replicate 127 (TypeID.TY_Swift, "f.swift"),
    allSourcesPath := "/tmp/sources" }

/-- A compilation with 129 top-level input files. -/
def comp129 : Compilation :=
  { args := [], OI := oiStd,
    inputFiles := List.replicate 129 (TypeID.TY_Swift, "f.swift"),
    allSourcesPath := "/tmp/sources" }

/-- A job context over the 127-input compilation. -/
def ctx127 : JobContext := mkJobContext comp127 [] [] outObj oiStd

/-- A job context over the 129-input compilation. -/
def ctx129 : JobContext := mkJobContext comp129 [] [] outObj oiStd

/-- C3: with all else equal, shouldUseInputFileList is false when the
top-level input category has 127 members and true when it has 129 members:
the list-file request is triggered exactly when the member count exceeds
TOO_MANY_FILES = 128. -/
theorem shouldUseInputFileList_threshold (ctx : JobContext) :
    (ctx.getTopLevelInputFiles.length = 127 →
      ctx.shouldUseInputFileList = false) ∧
    (ctx.getTopLevelInputFiles.length = 129 →
      ctx.shouldUseInputFileList = true) ∧
    (ctx.shouldUseInputFileList = true ↔
      ctx.getTopLevelInputFiles.length > TOO_MANY_FILES) := by
  refine ⟨?_, ?_, ?_⟩
  · intro h
    simp [JobContext.shouldUseInputFileList, h, TOO_MANY_FILES]
  · intro h
    simp [JobContext.shouldUseInputFileList, h, TOO_MANY_FILES]
  · simp [JobContext.shouldUseInputFileList]

/-- Witness for C3: the boundary evaluated at concrete contexts with 127 and
129 top-level inputs. -/
theorem shouldUseInputFileList_threshold_witness :
    ctx127.shouldUseInputFileList = false ∧
    ctx129.shouldUseInputFileList = true :=
  ⟨(shouldUseInputFileList_threshold ctx127).1
     (by simp [ctx127, mkJobContext, comp127, JobContext.getTopLevelInputFiles]),
   (shouldUseInputFileList_threshold ctx129).2.1
     (by simp [ctx129, mkJobContext, comp129, JobContext.getTopLevelInputFiles])⟩

/-- The cache obtained after resolving each of the given names in order. -/
def resolveCacheAfter (impl : String → String) (cache : ProgramLookupCache)
    (names : List String) : ProgramLookupCache :=
  names.foldl (fun c n => (findProgramRelativeToSwift impl c n).2.1) cache

/-- After one resolution of a name, the cache holds that name bound to the
returned path. -/
theorem cacheLookup_after_resolve (impl : String → String)
    (cache : ProgramLookupCache) (name : String) :
    cacheLookup (findProgramRelativeToSwift impl cache name).2.1 name
      = some (findProgramRelativeToSwift impl cache name).1 := by
  unfold findProgramRelativeToSwift
  cases h : cacheLookup cache name with
  | some p => simpa using h
  | none => simp [cacheLookup]

/-- Resolving any other name preserves an existing cache binding. -/
theorem cacheLookup_resolve_preserve (impl : String → String)
    (cache : ProgramLookupCache) (name n : String) (p : String)
    (h : cacheLookup cache name = some p) :
    cacheLookup (findProgramRelativeToSwift impl cache n).2.1 name = some p := by
  unfold findProgramRelativeToSwift
  cases hn : cacheLookup cache n with
  | some q => simpa using h
  | none =>
    by_cases hne : n = name
    · rw [hne] at hn
      rw [hn] at h
      exact absurd h (by simp)
    · simpa [cacheLookup, hne] using h

/-- Resolving any list of names preserves an existing cache binding. -/
theorem cacheLookup_resolveCacheAfter_preserve (impl : String → String)
    (names : List String) :
    ∀ (cache : ProgramLookupCache) (name p : String),
      cacheLookup cache name = some p →
      cacheLookup (resolveCacheAfter impl cache names) name = some p := by
  induction names with
  | nil => intro cache name p h; exact h
  | cons n t ih =>
    intro cache name p h
    exact ih _ name p (cacheLookup_resolve_preserve impl cache name n p h)

/-- C5: within one toolchain lifetime, findProgramRelativeToSwift is
idempotent: after resolving a name, any later resolution of that name (with
any other resolutions in between) returns the identical path without invoking
the platform search again, and the two resolutions together invoke the
platform search at most once. -/
theorem findProgramRelativeToSwift_idempotent (impl : String → String)
    (cache : ProgramLookupCache) (name : String) (others : List String) :
    (findProgramRelativeToSwift impl
        (resolveCacheAfter impl
          (findProgramRelativeToSwift impl cache name).2.1 others) name).1
      = (findProgramRelativeToSwift impl cache name).1 ∧
    (findProgramRelativeToSwift impl
        (resolveCacheAfter impl
          (findProgramRelativeToSwift impl cache name).2.1 others) name).2.2
      = 0 ∧
    (findProgramRelativeToSwift impl cache name).2.2 +
      (findProgramRelativeToSwift impl
        (resolveCacheAfter impl
          (findProgramRelativeToSwift impl cache name).2.1 others) name).2.2
      ≤ 1 := by
  have hbound : cacheLookup
      (resolveCacheAfter impl
        (findProgramRelativeToSwift impl cache name).2.1 others) name
      = some (findProgramRelativeToSwift impl cache name).1 :=
    cacheLookup_resolveCacheAfter_preserve impl others _ name _
      (cacheLookup_after_resolve impl cache name)
  have h1 : (findProgramRelativeToSwift impl
      (resolveCacheAfter impl
        (findProgramRelativeToSwift impl cache name).2.1 others) name).1
      = (findProgramRelativeToSwift impl cache name).1 := by
    rw [findProgramRelativeToSwift, hbound]
  have h2 : (findProgramRelativeToSwift impl
      (resolveCacheAfter impl
        (findProgramRelativeToSwift impl cache name).2.1 others) name).2.2
      = 0 := by
    rw [findProgramRelativeToSwift, hbound]
  refine ⟨h1, h2, ?_⟩
  rw [h2]
  cases h : cacheLookup cache name <;> simp [findProgramRelativeToSwift, h]

/-- C6: lookupTypeForExtension is total: the empty extension and every
extension outside the table map to TY_INVALID, and the recognized Swift
source extension maps to the source kind TY_Swift. -/
theorem lookupTypeForExtension_total :
    lookupTypeForExtension "" = TypeID.TY_INVALID ∧
    (∀ ext : String, (∀ p ∈ extensionTable, p.1 ≠ ext) →
      lookupTypeForExtension ext = TypeID.TY_INVALID) ∧
    lookupTypeForExtension "swift" = TypeID.TY_Swift := by
  refine ⟨by decide, ?_, by decide⟩
  intro ext h
  unfold lookupTypeForExtension
  have hnone : extensionTable.find? (fun p => p.1 == ext) = none := by
    rw [List.find?_eq_none]
    intro x hx
    simpa using h x hx
  rw [hnone]

/-- Witness for C6: a concrete unrecognized extension maps to TY_INVALID. -/
theorem lookupTypeForExtension_total_witness :
    lookupTypeForExtension "xyz" = TypeID.TY_INVALID :=
  lookupTypeForExtension_total.2.1 "xyz" (by decide)

/-- A command-output description of an index-data job. -/
def outIndex : CommandOutput :=
  { primaryOutputType := TypeID.TY_IndexData, outputs := [],
    indexFilePath := "/tmp/index" }

/-- C7: for an index-data job, canCompileInputArgumentBePrimary holds exactly
when the argument equals the output's designated index-file-path value. -/
theorem canCompileInputArgumentBePrimary_indexData (Output : CommandOutput)
    (A : String) (h : Output.primaryOutputType = TypeID.TY_IndexData) :
    canCompileInputArgumentBePrimary Output A = true ↔
      A = Output.indexFilePath := by
  simp [canCompileInputArgumentBePrimary, h]

/-- Witness for C7: at a concrete index-data output, the matching argument is
primary and a different argument is not. -/
theorem canCompileInputArgumentBePrimary_indexData_witness :
    (canCompileInputArgumentBePrimary outIndex "/tmp/index" = true ↔
      "/tmp/index" = outIndex.indexFilePath) ∧
    (canCompileInputArgumentBePrimary outIndex "other.swift" = true ↔
      "other.swift" = outIndex.indexFilePath) :=
  ⟨canCompileInputArgumentBePrimary_indexData outIndex "/tmp/index" (by decide),
   canCompileInputArgumentBePrimary_indexData outIndex "other.swift" (by decide)⟩

/-- C8: addFrontendInputAndOutputArguments is deterministic: two job contexts
whose components are identical (same compilation, inputs in the same order,
input actions, output description, output info and arguments) produce the
identical argument list and the identical list-file requests. -/
theorem addFrontendInputAndOutputArguments_deterministic
    (c₁ c₂ : JobContext) (h1 : c₁.C = c₂.C) (h2 : c₁.Inputs = c₂.Inputs)
    (h3 : c₁.InputActions = c₂.InputActions) (h4 : c₁.Output = c₂.Output)
    (h5 : c₁.OI = c₂.OI) (h6 : c₁.Args = c₂.Args) :
    c₁.addFrontendInputAndOutputArguments.1
        = c₂.addFrontendInputAndOutputArguments.1 ∧
    c₁.addFrontendInputAndOutputArguments.2
        = c₂.addFrontendInputAndOutputArguments.2 := by
  have hctx : c₁ = c₂ := by
    cases c₁
    cases c₂
    simp_all
  rw [hctx]
  exact ⟨rfl, rfl⟩

/-- A concrete job context over the standard compilation. -/
def ctxStd : JobContext := mkJobContext compStd [] [actSwift] outObj oiStd

/-- Witness for C8: determinism applied at a concrete job context. -/
theorem addFrontendInputAndOutputArguments_deterministic_witness :
    ctxStd.addFrontendInputAndOutputArguments.1
        = ctxStd.addFrontendInputAndOutputArguments.1 ∧
    ctxStd.addFrontendInputAndOutputArguments.2
        = ctxStd.addFrontendInputAndOutputArguments.2 :=
  addFrontendInputAndOutputArguments_deterministic ctxStd ctxStd
    rfl rfl rfl rfl rfl rfl

/-- C9: the Job returned by constructJob has exactly the given input Jobs as
its dependency edges: none added, dropped, or reordered. -/
theorem constructJob_deps (JA : ActionKind) (C : Compilation)
    (inputs : List Nat) (inputActions : List Action)
    (output : CommandOutput) (OI : OutputInfo) :
    (constructJob JA C inputs inputActions output OI).deps = inputs := rfl

/-- C10: the JobContext constructor caches exactly the compilation's argument
list in its Args field, and borrows the compilation itself unchanged. -/
theorem mkJobContext_Args (C : Compilation) (Inputs : List Nat)
    (InputActions : List Action) (Output : CommandOutput) (OI : OutputInfo) :
    (mkJobContext C Inputs InputActions Output OI).Args = C.getArgs ∧
    (mkJobContext C Inputs InputActions Output OI).C = C :=
  ⟨rfl, rfl⟩

end SwiftDriver
